import Mathlib

/-
  Verification development for the movie retrieval-and-backfill service
  (FastAPI + MongoDB + sentence-transformers glue code).

  Shallow embedding conventions:
  * A MongoDB document is a `Movie` record; an `Option` field with value
    `none` models an *absent* field, and the `BVal` type distinguishes a
    present-but-null field (`BVal.vnull`) from a string (`BVal.vstr`).
  * Vectors are `List Rat` (the float contents are never branched on by
    the code under verification, only moved around and compared).
  * Fallible external calls (the sentence-transformers encoder, the
    store's network layer) are parameters: an encoder returning `none`
    models `model.encode` raising, and a `fails : String → Bool` oracle
    models a store-side exception on an `update_one` call, which
    `database.update_movie_embedding` catches and turns into `False`.
  * Python control flow around exceptions is made explicit with
    `Except`: the body of a `try:` block produces `Except PyExc α`, and
    the `except Exception` clause is a `match` on that result.
-/

namespace MovieRag

/-- A dense embedding vector (Python `list[float]`). -/
abbrev Vec := List Rat

/-- A BSON value stored in the `plot` field of a document: either the
null value or a string. -/
inductive BVal where
  | vnull
  | vstr (s : String)
deriving DecidableEq, Repr

/-- A document of the movies collection, restricted to the fields the
verified code reads or writes. `none` in an `Option` field means the
field is absent from the document. -/
structure Movie where
  _id : String
  plot : Option BVal := none
  plot_embedding : Option Vec := none
deriving DecidableEq, Repr

/-! ### ObjectId parsing (`bson.ObjectId` applied to a `str`)

`ObjectId(movie_id)` on a Python `str` succeeds exactly when the string
is a 24-character hexadecimal string, and the resulting id compares
case-insensitively (its canonical `str` form is lowercase). -/

/-- A hexadecimal digit. -/
def isHexDigit (c : Char) : Bool :=
  c.isDigit || ('a' ≤ c && c ≤ 'f') || ('A' ≤ c && c ≤ 'F')

/-- `ObjectId(s)` on a `str` argument succeeds iff `s` is 24 hex chars. -/
def isValidObjectId (s : String) : Bool :=
  s.length == 24 && s.toList.all isHexDigit

/-- The canonical (lowercase) string form of a parsed ObjectId, the form
in which `_id` values are stored in the model. -/
def normalizeObjectId (s : String) : String :=
  (s.toList.map Char.toLower).asString

/-! ### `app/routes/movies.py` — `get_movie` -/

/-- A Python exception raised inside the `try:` body of `get_movie`. -/
inductive PyExc where
  | invalidId
  | httpException (status : Nat)
deriving DecidableEq, Repr

/-- Outcome of the single-document fetch route: a 200 body, or an HTTP
error response with the given status. -/
inductive FetchOutcome where
  | ok (m : Movie)
  | httpError (status : Nat)
deriving DecidableEq, Repr

/-- The `try:` body of `get_movie`: parse the id (`ObjectId` raises
`InvalidId` on a malformed string), `find_one`, and raise
`HTTPException(404)` when no document is found. -/
def get_movie_try (store : List Movie) (movie_id : String) :
    Except PyExc Movie :=
  if !isValidObjectId movie_id then
    .error .invalidId
  else
    match store.find? (fun m => m._id == normalizeObjectId movie_id) with
    | none => .error (.httpException 404)
    | some m => .ok m

/-- `get_movie` from `app/routes/movies.py`. The `except Exception`
clause catches every exception raised in the body — including the
`HTTPException(404)` raised there — and re-raises
`HTTPException(500, "Error fetching movie: ...")`. -/
def get_movie (store : List Movie) (movie_id : String) : FetchOutcome :=
  match get_movie_try store movie_id with
  | .ok m => .ok m
  | .error _ => .httpError 500

/-! ### `app/embeddings.py` — `EmbeddingModel.get_embedding` / `get_embeddings` -/

/-- A Python value passed as the `text` argument (the signature says
`str` but Python does not enforce it; the code explicitly tests
`isinstance(text, str)`). -/
inductive PyVal where
  | pstr (s : String)
  | pnone
  | pint (n : Int)
deriving DecidableEq, Repr

/-- Python truthiness for the values of `PyVal`. -/
def pyTruthy : PyVal → Bool
  | .pstr s => !s.isEmpty
  | .pnone => false
  | .pint n => n != 0

/-- `isinstance(text, str)`. -/
def pyIsStr : PyVal → Bool
  | .pstr _ => true
  | _ => false

/-- `EmbeddingModel.get_embedding`. The encoder parameter `enc` stands
for `self.model.encode` on a single text; `enc s = none` models the
model raising, which the `except` clause converts to a zero vector of
the configured dimension `dim` (`settings.VECTOR_DIMENSION`). The
guard `if not text or not isinstance(text, str)` also short-circuits
to the zero vector. -/
def get_embedding (dim : Nat) (enc : String → Option Vec) (text : PyVal) : Vec :=
  if !pyTruthy text || !pyIsStr text then
    List.replicate dim 0
  else
    match text with
    | .pstr s =>
      match enc s with
      | some v => v
      | none => List.replicate dim 0
    | _ => List.replicate dim 0

/-- `EmbeddingModel.get_embeddings` (batch). The input elements are
`Option String` because the call site passes `movie.get('plot', '')`,
which is `None` for a present-but-null plot; `encB ts = none` models
`model.encode` raising on the batch, in which case the `except` clause
returns one zero vector per input text. `if not texts: return []`
short-circuits before the encoder is invoked. -/
def get_embeddings (dim : Nat) (encB : List (Option String) → Option (List Vec))
    (texts : List (Option String)) : List Vec :=
  if texts.isEmpty then
    []
  else
    match encB texts with
    | some vs => vs
    | none => List.replicate texts.length (List.replicate dim 0)

/-! ### The backfill selection query (`app/routes/movies.py`, `generate_embeddings`)

The source builds the filter as a Python dict literal:

    query = {
        "plot": {"$exists": True, "$ne": None, "$ne": ""},
        "plot_embedding": {"$exists": False}
    }

The inner dict literal has a duplicate `"$ne"` key; Python dict-literal
semantics keep only the value of the last occurrence. We embed the
literal as a sequence of `pyDictInsert`s so that those semantics are
explicit rather than silently applied. -/

/-- An operator value in a Mongo condition dict. -/
inductive QVal where
  | qbool (b : Bool)
  | qnull
  | qstr (s : String)
deriving DecidableEq, Repr

/-- Python dict insertion: assigning to a key that is already present
overwrites its value in place; otherwise the pair is appended. -/
def pyDictInsert (d : List (String × QVal)) (k : String) (v : QVal) :
    List (String × QVal) :=
  if d.any (fun p => p.1 == k) then
    d.map (fun p => if p.1 == k then (k, v) else p)
  else
    d ++ [(k, v)]

/-- The condition dict on the `plot` field, exactly as the dict literal
`{"$exists": True, "$ne": None, "$ne": ""}` evaluates in Python. -/
def plotCond : List (String × QVal) :=
  pyDictInsert (pyDictInsert (pyDictInsert [] "$exists" (.qbool true))
    "$ne" .qnull) "$ne" (.qstr "")

/-- Comparison used by `$ne`: whether the BSON value of a field equals
the query operand. A BSON null field equals the `null` operand only. -/
def bvalEqQ : BVal → QVal → Bool
  | .vnull, .qnull => true
  | .vstr s, .qstr t => s == t
  | _, _ => false

/-- Mongo evaluation of one operator of a condition dict against an
optional field value (for comparison operators an absent field is
treated as BSON null). -/
def evalCond (field : Option BVal) : String × QVal → Bool
  | ("$exists", .qbool b) => field.isSome == b
  | ("$ne", v) => !bvalEqQ (field.getD .vnull) v
  | _ => true

/-- Whether a document matches the backfill query: the `plot` condition
dict (as evaluated by Python, see `plotCond`) conjoined with
`"plot_embedding": {"$exists": False}`. -/
def matchesBackfillQuery (m : Movie) : Bool :=
  plotCond.all (evalCond m.plot) && m.plot_embedding.isNone

/-- `collection.find(query).skip(skip).limit(limit)` in
`generate_embeddings` (the route validates `1 ≤ limit ≤ 1000`, so the
`limit 0 = unlimited` Mongo convention never applies). -/
def backfillSelection (store : List Movie) (skip limit : Nat) : List Movie :=
  (((store.filter matchesBackfillQuery).drop skip).take limit)

/-- The selection predicate the specification describes: text field
present and non-empty (neither null nor the empty string) and vector
field absent. Stated from the spec's words, for comparison with
`matchesBackfillQuery`. -/
def specEligible (m : Movie) : Bool :=
  (match m.plot with
   | some (.vstr s) => !s.isEmpty
   | _ => false) && m.plot_embedding.isNone

/-! ### `app/database.py` — `MongoDB.update_movie_embedding` -/

/-- `update_one({"_id": oid}, {"$set": {...}})` updates the first (in
the model: the unique) matching document; setting `plot_embedding`
to `emb` on the first document whose `_id` matches. -/
def setEmbFirst (store : List Movie) (oid : String) (emb : Vec) : List Movie :=
  match store with
  | [] => []
  | m :: ms =>
    if m._id == oid then { m with plot_embedding := some emb } :: ms
    else m :: setEmbFirst ms oid emb

/-- `MongoDB.update_movie_embedding`. Returns the updated store and the
boolean `result.modified_count > 0`: false when no document matches,
and false when the matched document already stores exactly this value
(Mongo does not count an identity `$set` as a modification). A
malformed id makes `ObjectId` raise, and a store-side error on the
`update_one` call is modelled by the `fails` oracle; both are caught
by the `except` clause, which returns `False`. -/
def update_movie_embedding (fails : String → Bool) (store : List Movie)
    (movie_id : String) (emb : Vec) : List Movie × Bool :=
  if !isValidObjectId movie_id then
    (store, false)
  else if fails movie_id then
    (store, false)
  else
    let oid := normalizeObjectId movie_id
    match store.find? (fun m => m._id == oid) with
    | none => (store, false)
    | some m =>
      if m.plot_embedding == some emb then (store, false)
      else (setEmbFirst store oid emb, true)

/-! ### `app/database.py` — `MongoDB.vector_search` -/

/-- The `$vectorSearch` stage of the aggregation pipeline built by
`vector_search`, field for field. -/
structure VectorSearchStage where
  index : String
  path : String
  queryVector : Vec
  numCandidates : Nat
  limit : Nat
deriving Repr

/-- The `$vectorSearch` stage as `vector_search` constructs it
(`settings.VECTOR_INDEX_NAME` defaults to `movie_embeddings_index`). -/
def vectorSearchStage (indexName : String) (query_embedding : Vec)
    (limit : Nat) : VectorSearchStage :=
  { index := indexName
    path := "plot_embedding"
    queryVector := query_embedding
    numCandidates := limit * 10
    limit := limit }

/-- A store-side search result after the `$project` stage: the
projected document fields (kept abstract — the code only moves them)
plus the similarity score. -/
structure SearchDoc where
  _id : String
  title : String
  plot : Option String := none
  year : Option Int := none
  score : Rat
deriving DecidableEq, Repr

/-- Store-side semantics of a `$vectorSearch` stage: the store ranks
documents by similarity (the ranking `ranked` is the store's, an
oracle of this model), considers the first `numCandidates` of them,
and truncates the output to `limit`. -/
def runVectorSearchStage (ranked : List SearchDoc)
    (st : VectorSearchStage) : List SearchDoc :=
  (ranked.take st.numCandidates).take st.limit

/-- `MongoDB.vector_search`: build the pipeline from the caller's
`query_embedding` and `limit` and run it against the store's ranking. -/
def vector_search (indexName : String) (ranked : List SearchDoc)
    (query_embedding : Vec) (limit : Nat) : List SearchDoc :=
  runVectorSearchStage ranked (vectorSearchStage indexName query_embedding limit)

/-! ### `app/routes/movies.py` — `semantic_search` -/

/-- `SearchRequest` (pydantic): `query` has `min_length=1`, `limit` is
constrained to `1 ≤ limit ≤ 20` with default 5. The constraints are
enforced by the framework before the route body runs; theorems carry
them as hypotheses. -/
structure SearchRequest where
  query : String
  limit : Nat := 5
deriving DecidableEq, Repr

/-- `SearchResponse` (pydantic): echoed query, results, count. -/
structure SearchResponse where
  query : String
  results : List SearchDoc
  count : Nat
deriving DecidableEq, Repr

/-- `semantic_search` from `app/routes/movies.py`: embed the query with
`get_embedding`, call `vector_search` with the caller's limit, wrap
each store result as a `SearchResult` in the store's order, and return
the response with `count = len(search_results)` and the original query
echoed. -/
def semantic_search (dim : Nat) (enc : String → Option Vec)
    (indexName : String) (ranked : List SearchDoc)
    (request : SearchRequest) : SearchResponse :=
  let query_embedding := get_embedding dim enc (.pstr request.query)
  let results := vector_search indexName ranked query_embedding request.limit
  { query := request.query
    results := results
    count := results.length }

/-! ### `app/routes/movies.py` — `generate_embeddings` (backfill) -/

/-- `EmbeddingGenerationResponse` (pydantic). -/
structure EmbeddingGenerationResponse where
  success : Bool
  processed : Nat
  message : String
deriving DecidableEq, Repr

/-- `movie.get('plot', '')` at the backfill call site: the default `''`
applies only when the field is absent; a present-but-null plot yields
Python `None` (modelled as `none`). -/
def plotOrDefault (m : Movie) : Option String :=
  match m.plot with
  | none => some ""
  | some .vnull => none
  | some (.vstr s) => some s

/-- One iteration of the update loop in `generate_embeddings`: run
`update_movie_embedding` on the current store and increment the
counter exactly when it returned `True`. -/
def updateStep (fails : String → Bool) (acc : List Movie × Nat)
    (p : String × Vec) : List Movie × Nat :=
  let r := update_movie_embedding fails acc.1 p.1 p.2
  (r.1, if r.2 then acc.2 + 1 else acc.2)

/-- `generate_embeddings` from `app/routes/movies.py`: select the
backfill window, return early on an empty selection, batch-embed the
plots, then persist sequentially in selection order counting only the
updates that returned `True`. Returns the final store state and the
response. -/
def generate_embeddings (dim : Nat)
    (encB : List (Option String) → Option (List Vec))
    (fails : String → Bool) (store : List Movie)
    (skip limit : Nat) : List Movie × EmbeddingGenerationResponse :=
  let movies := backfillSelection store skip limit
  if movies.isEmpty then
    (store, { success := true, processed := 0,
              message := "No movies found without embeddings" })
  else
    let plots := movies.map plotOrDefault
    let movie_ids := movies.map (fun m => m._id)
    let embeddings := get_embeddings dim encB plots
    let acc := (movie_ids.zip embeddings).foldl (updateStep fails) (store, 0)
    (acc.1, { success := true, processed := acc.2,
              message := "Successfully generated embeddings for " ++
                toString acc.2 ++ " movies" })

/-! ### `app/routes/movies.py` — `embedding_stats` -/

/-- Python `round(x, 2)` on the exact rational value: scale by 100,
round half to even, scale back. -/
def pyRound2 (q : Rat) : Rat :=
  let x := q * 100
  let f : Int := ⌊x⌋
  let frac := x - (f : Rat)
  let r : Int :=
    if frac < 1/2 then f
    else if frac > 1/2 then f + 1
    else if f % 2 == 0 then f else f + 1
  (r : Rat) / 100

/-- The JSON object returned by the stats route. -/
structure StatsResponse where
  total_movies : Nat
  with_embeddings : Nat
  without_embeddings : Nat
  completion_percentage : Rat
deriving DecidableEq, Repr

/-- `embedding_stats` from `app/routes/movies.py`:
`count_documents({})`, `count_documents({"plot_embedding": {"$exists": True}})`,
their difference, and the completion percentage guarded by
`if total_movies > 0 else 0`. -/
def embedding_stats (store : List Movie) : StatsResponse :=
  let total_movies := store.length
  let movies_with_embeddings :=
    (store.filter (fun m => m.plot_embedding.isSome)).length
  { total_movies := total_movies
    with_embeddings := movies_with_embeddings
    without_embeddings := total_movies - movies_with_embeddings
    completion_percentage :=
      if total_movies > 0 then
        pyRound2 ((movies_with_embeddings : Rat) / (total_movies : Rat) * 100)
      else 0 }

/-! ## Helper lemmas -/

/-- The backfill selection is a sublist of the documents matching the
backfill query. -/
lemma backfillSelection_sublist_filter (store : List Movie) (skip limit : Nat) :
    (backfillSelection store skip limit).Sublist
      (store.filter matchesBackfillQuery) :=
  (List.take_sublist _ _).trans (List.drop_sublist _ _)

/-- The backfill selection is a sublist of the store. -/
lemma backfillSelection_sublist (store : List Movie) (skip limit : Nat) :
    (backfillSelection store skip limit).Sublist store :=
  (backfillSelection_sublist_filter store skip limit).trans
    (List.filter_sublist store)

/-- Matching the backfill query forces the vector field to be absent:
the `plot_embedding` exists-check is a conjunct of the query. -/
lemma matchesBackfillQuery_unembedded {m : Movie}
    (h : matchesBackfillQuery m = true) : m.plot_embedding.isNone = true := by
  simp only [matchesBackfillQuery, Bool.and_eq_true] at h
  exact h.2

/-- Every document chosen by the backfill selection lacks a vector. -/
lemma mem_backfillSelection_unembedded {m : Movie} {store : List Movie}
    {skip limit : Nat} (hm : m ∈ backfillSelection store skip limit) :
    m.plot_embedding.isNone = true := by
  have hmem : m ∈ store.filter matchesBackfillQuery :=
    (backfillSelection_sublist_filter store skip limit).mem hm
  exact matchesBackfillQuery_unembedded (List.of_mem_filter hmem)

/-- The backfill selection never holds more documents than the store
has documents lacking a vector. -/
lemma backfillSelection_length_le_unembedded (store : List Movie)
    (skip limit : Nat) :
    (backfillSelection store skip limit).length
      ≤ (store.filter (fun m => m.plot_embedding.isNone)).length := by
  have h1 := (backfillSelection_sublist_filter store skip limit).length_le
  have h2 : (store.filter matchesBackfillQuery).length
      ≤ (store.filter (fun m => m.plot_embedding.isNone)).length := by
    rw [← List.countP_eq_length_filter, ← List.countP_eq_length_filter]
    exact List.countP_mono_left
      (fun m _ hm => matchesBackfillQuery_unembedded hm)
  omega

/-- The update loop of `generate_embeddings` increments its counter at
most once per pair. -/
lemma foldl_updateStep_le (fails : String → Bool) :
    ∀ (pairs : List (String × Vec)) (store : List Movie) (n : Nat),
      (pairs.foldl (updateStep fails) (store, n)).2 ≤ n + pairs.length := by
  intro pairs
  induction pairs with
  | nil => intro store n; simp
  | cons p ps ih =>
    intro store n
    simp only [List.foldl_cons]
    have hstep : (updateStep fails (store, n) p).2 ≤ n + 1 := by
      simp only [updateStep]
      split <;> omega
    have h2 := ih (updateStep fails (store, n) p).1 (updateStep fails (store, n) p).2
    rw [Prod.mk.eta] at h2
    calc (ps.foldl (updateStep fails) (updateStep fails (store, n) p)).2
        ≤ (updateStep fails (store, n) p).2 + ps.length := h2
      _ ≤ n + (p :: ps).length := by simp [List.length_cons]; omega

/-- Whatever the store, one backfill invocation reports at most as many
processed documents as the store has documents lacking a vector. -/
lemma generate_embeddings_processed_le (dim : Nat)
    (encB : List (Option String) → Option (List Vec))
    (fails : String → Bool) (store : List Movie) (skip limit : Nat) :
    (generate_embeddings dim encB fails store skip limit).2.processed
      ≤ (store.filter (fun m => m.plot_embedding.isNone)).length := by
  simp only [generate_embeddings]
  split
  · simp
  · simp only
    have hfold := foldl_updateStep_le fails
      (((backfillSelection store skip limit).map (fun m => m._id)).zip
        (get_embeddings dim encB
          ((backfillSelection store skip limit).map plotOrDefault)))
      store 0
    have hzip : (((backfillSelection store skip limit).map (fun m => m._id)).zip
        (get_embeddings dim encB
          ((backfillSelection store skip limit).map plotOrDefault))).length
        ≤ (backfillSelection store skip limit).length := by
      rw [List.length_zip, List.length_map]
      omega
    have hsel := backfillSelection_length_le_unembedded store skip limit
    omega

/-- The first components of a zip form a sublist of the left input. -/
lemma map_fst_zip_sublist {α β : Type} :
    ∀ (l1 : List α) (l2 : List β), ((l1.zip l2).map Prod.fst).Sublist l1 := by
  intro l1
  induction l1 with
  | nil => intro l2; simp
  | cons a l1 ih =>
    intro l2
    cases l2 with
    | nil => simp
    | cons b l2 => simpa using (ih l2).cons₂ a

/-- Setting the embedding of one document does not disturb lookups of a
different id. -/
lemma find?_setEmbFirst_ne {oid pid : String} (emb : Vec) (h : pid ≠ oid) :
    ∀ store : List Movie,
      (setEmbFirst store oid emb).find? (fun m => m._id == pid)
        = store.find? (fun m => m._id == pid) := by
  intro store
  induction store with
  | nil => rfl
  | cons m ms ih =>
    by_cases hmo : m._id = oid
    · have hop : (oid == pid) = false := by
        simp only [beq_eq_false_iff_ne, ne_eq]
        exact fun he => h he.symm
      simp [setEmbFirst, hmo, List.find?_cons_of_neg, hop]
    · have hmo' : (m._id == oid) = false := by simp [hmo]
      by_cases hmp : m._id = pid
      · simp [setEmbFirst, hmo', hmp, h, List.find?_cons_of_pos]
      · have hmp' : (m._id == pid) = false := by simp [hmp]
        simp [setEmbFirst, hmo', List.find?_cons_of_neg, hmp', ih]

/-- The update loop of `generate_embeddings`, run over pairs with
distinct, well-formed, canonical ids that all point at a stored
document lacking a vector, adds to its counter exactly the number of
pairs whose store update does not fail. -/
lemma foldl_updateStep_count (fails : String → Bool) :
    ∀ (pairs : List (String × Vec)) (store : List Movie) (n : Nat),
      (∀ p ∈ pairs, isValidObjectId p.1 = true ∧
          normalizeObjectId p.1 = p.1) →
      (∀ p ∈ pairs, ∃ m, store.find? (fun x => x._id == p.1) = some m ∧
          m.plot_embedding = none) →
      (pairs.map Prod.fst).Nodup →
      (pairs.foldl (updateStep fails) (store, n)).2
        = n + pairs.countP (fun p => !fails p.1) := by
  intro pairs
  induction pairs with
  | nil => intro store n _ _ _; simp
  | cons p ps ih =>
    intro store n hvalid hfind hnodup
    obtain ⟨m, hm, hemb⟩ := hfind p (List.mem_cons_self p ps)
    have hv := hvalid p (List.mem_cons_self p ps)
    rw [List.map_cons] at hnodup
    obtain ⟨hhead, htnodup⟩ := List.nodup_cons.mp hnodup
    simp only [List.foldl_cons]
    by_cases hf : fails p.1
    · have hstep : updateStep fails (store, n) p = (store, n) := by
        simp [updateStep, update_movie_embedding, hv.1, hv.2, hf]
      rw [hstep,
        ih store n (fun q hq => hvalid q (List.mem_cons_of_mem p hq))
          (fun q hq => hfind q (List.mem_cons_of_mem p hq)) htnodup]
      simp [List.countP_cons, hf]
    · have hne : (m.plot_embedding == some p.2) = false := by
        simp [hemb]
      have hstep : updateStep fails (store, n) p
          = (setEmbFirst store p.1 p.2, n + 1) := by
        simp [updateStep, update_movie_embedding, hv.1, hv.2, hf, hm, hne]
      have htfind : ∀ q ∈ ps, ∃ m',
          (setEmbFirst store p.1 p.2).find? (fun x => x._id == q.1) = some m' ∧
          m'.plot_embedding = none := by
        intro q hq
        obtain ⟨m', hm', hemb'⟩ := hfind q (List.mem_cons_of_mem p hq)
        have hqp : q.1 ≠ p.1 := by
          intro he
          have hq1 : q.1 ∈ ps.map Prod.fst := List.mem_map_of_mem Prod.fst hq
          exact hhead (he ▸ hq1)
        exact ⟨m', by rw [find?_setEmbFirst_ne p.2 hqp store]; exact hm', hemb'⟩
      rw [hstep,
        ih (setEmbFirst store p.1 p.2) (n + 1)
          (fun q hq => hvalid q (List.mem_cons_of_mem p hq)) htfind htnodup]
      simp only [List.countP_cons, hf]
      simp
      omega

/-! ## Theorems -/

/-- Claim C1 (code bug exhibit): fetching a well-formed but absent
identifier returns HTTP 500, not 404 — the `HTTPException(404)` raised
inside the `try:` body of `get_movie` is caught by its own blanket
`except Exception` clause and re-raised as
`HTTPException(500, "Error fetching movie: ...")`. A malformed
identifier also yields 500, so it is not distinguished from the
not-found case either. -/
theorem get_movie_absent_returns_500 :
    get_movie [] "0123456789abcdef01234567" = .httpError 500 ∧
    isValidObjectId "0123456789abcdef01234567" = true ∧
    get_movie [] "not-an-objectid" = .httpError 500 ∧
    isValidObjectId "not-an-objectid" = false := by
  decide

/-- Claim C2 (code bug exhibit): a document whose `plot` field is
present but null and that lacks `plot_embedding` IS selected by the
backfill query, although the spec's selection predicate excludes it.
The `"$ne": None` entry of the source's dict literal is overwritten by
the duplicate `"$ne": ""` key, so the null exclusion is lost. -/
theorem backfill_selects_null_plot :
    backfillSelection [⟨"0123456789abcdef01234567", some .vnull, none⟩] 0 100
      = [⟨"0123456789abcdef01234567", some .vnull, none⟩] ∧
    specEligible ⟨"0123456789abcdef01234567", some .vnull, none⟩ = false := by
  decide

/-- Claim C3: backfill is idempotent — after one run, a second run with
the store otherwise unchanged reports at most as many processed
documents as remain unembedded after the first run, and (the reason)
every document the second run selects still lacks a vector, since the
selection filter excludes embedded documents by construction. -/
theorem backfill_second_run_bounded (dim : Nat)
    (encB : List (Option String) → Option (List Vec))
    (fails : String → Bool) (store : List Movie) (skip limit : Nat) :
    (generate_embeddings dim encB fails
        (generate_embeddings dim encB fails store skip limit).1
        skip limit).2.processed
      ≤ ((generate_embeddings dim encB fails store skip limit).1.filter
          (fun m => m.plot_embedding.isNone)).length ∧
    ∀ m ∈ backfillSelection
        (generate_embeddings dim encB fails store skip limit).1 skip limit,
      m.plot_embedding.isNone = true :=
  ⟨generate_embeddings_processed_le dim encB fails _ skip limit,
   fun _ hm => mem_backfillSelection_unembedded hm⟩

/-- Claim C4: on a non-empty selection (over a store with distinct,
canonical, well-formed ids), backfill reports `success = true` even
when individual updates fail, and its `processed` count equals exactly
the number of sequential per-document updates that truly succeeded —
here, one per selected pair whose store update does not fail, since
every selected document exists and lacks a vector. -/
theorem generate_embeddings_partial_success (dim : Nat)
    (encB : List (Option String) → Option (List Vec))
    (fails : String → Bool) (store : List Movie) (skip limit : Nat)
    (hnodup : (store.map (fun m => m._id)).Nodup)
    (hids : ∀ m ∈ store, isValidObjectId m._id = true ∧
        normalizeObjectId m._id = m._id)
    (hne : backfillSelection store skip limit ≠ []) :
    (generate_embeddings dim encB fails store skip limit).2.success = true ∧
    (generate_embeddings dim encB fails store skip limit).2.processed
      = (((backfillSelection store skip limit).map (fun m => m._id)).zip
          (get_embeddings dim encB
            ((backfillSelection store skip limit).map plotOrDefault))).countP
          (fun p => !fails p.1) := by
  have hsub : (backfillSelection store skip limit).Sublist store :=
    backfillSelection_sublist store skip limit
  have hmem_sel : ∀ p : String × Vec,
      p ∈ ((backfillSelection store skip limit).map (fun m => m._id)).zip
          (get_embeddings dim encB
            ((backfillSelection store skip limit).map plotOrDefault)) →
      ∃ mv ∈ backfillSelection store skip limit, mv._id = p.1 := by
    intro p hp
    obtain ⟨a, b⟩ := p
    have h1 : a ∈ (backfillSelection store skip limit).map (fun m => m._id) :=
      (List.of_mem_zip hp).1
    obtain ⟨mv, hmv, hid⟩ := List.mem_map.mp h1
    exact ⟨mv, hmv, hid⟩
  have hva : ∀ p ∈ ((backfillSelection store skip limit).map
        (fun m => m._id)).zip
        (get_embeddings dim encB
          ((backfillSelection store skip limit).map plotOrDefault)),
      isValidObjectId (Prod.fst p) = true ∧
        normalizeObjectId (Prod.fst p) = Prod.fst p := by
    intro p hp
    obtain ⟨mv, hmv, hid⟩ := hmem_sel p hp
    exact hid ▸ hids mv (hsub.mem hmv)
  have hfa : ∀ p ∈ ((backfillSelection store skip limit).map
        (fun m => m._id)).zip
        (get_embeddings dim encB
          ((backfillSelection store skip limit).map plotOrDefault)),
      ∃ m, store.find? (fun x => x._id == Prod.fst p) = some m ∧
        m.plot_embedding = none := by
    intro p hp
    obtain ⟨mv, hmv, hid⟩ := hmem_sel p hp
    have hmv_store : mv ∈ store := hsub.mem hmv
    have hnone : mv.plot_embedding = none :=
      Option.isNone_iff_eq_none.mp (mem_backfillSelection_unembedded hmv)
    have hex : (store.find? (fun x => x._id == Prod.fst p)).isSome = true :=
      List.find?_isSome.mpr ⟨mv, hmv_store, by simp [hid]⟩
    obtain ⟨x, hx⟩ := Option.isSome_iff_exists.mp hex
    have hxid : x._id = Prod.fst p := by
      have := List.find?_some hx
      simpa using this
    have hx_store : x ∈ store := List.mem_of_find?_eq_some hx
    have hxmv : x = mv :=
      List.inj_on_of_nodup_map hnodup hx_store hmv_store (by rw [hxid, hid])
    exact ⟨x, hx, by rw [hxmv]; exact hnone⟩
  have hnd : ((((backfillSelection store skip limit).map
        (fun m => m._id)).zip
        (get_embeddings dim encB
          ((backfillSelection store skip limit).map plotOrDefault))).map
        Prod.fst).Nodup := by
    have h1 := map_fst_zip_sublist
      ((backfillSelection store skip limit).map (fun m => m._id))
      (get_embeddings dim encB
        ((backfillSelection store skip limit).map plotOrDefault))
    have h2 : ((backfillSelection store skip limit).map
        (fun m => m._id)).Sublist (store.map (fun m => m._id)) :=
      hsub.map (fun m => m._id)
    exact (h1.trans h2).nodup hnodup
  have hcount := foldl_updateStep_count fails
    (((backfillSelection store skip limit).map (fun m => m._id)).zip
      (get_embeddings dim encB
        ((backfillSelection store skip limit).map plotOrDefault)))
    store 0 hva hfa hnd
  have hnemp : (backfillSelection store skip limit).isEmpty = false := by
    simpa [List.isEmpty_iff] using hne
  constructor
  · simp only [generate_embeddings, hnemp, Bool.false_eq_true, if_false]
  · simp only [generate_embeddings, hnemp, Bool.false_eq_true, if_false]
    simpa using hcount

/-- Witness for C4: two eligible documents; the store update for the
second one fails, yet the run reports `success = true` with
`processed = 1`. -/
theorem generate_embeddings_partial_success_witness :
    (generate_embeddings 2 (fun ts => some (ts.map (fun _ => ([1] : Vec))))
        (fun i => i == "aaaaaaaaaaaaaaaaaaaaaaaa")
        [⟨"0123456789abcdef01234567", some (.vstr "x"), none⟩,
         ⟨"aaaaaaaaaaaaaaaaaaaaaaaa", some (.vstr "y"), none⟩]
        0 100).2.success = true ∧
    (generate_embeddings 2 (fun ts => some (ts.map (fun _ => ([1] : Vec))))
        (fun i => i == "aaaaaaaaaaaaaaaaaaaaaaaa")
        [⟨"0123456789abcdef01234567", some (.vstr "x"), none⟩,
         ⟨"aaaaaaaaaaaaaaaaaaaaaaaa", some (.vstr "y"), none⟩]
        0 100).2.processed = 1 := by
  have h := generate_embeddings_partial_success 2
    (fun ts => some (ts.map (fun _ => ([1] : Vec))))
    (fun i => i == "aaaaaaaaaaaaaaaaaaaaaaaa")
    [⟨"0123456789abcdef01234567", some (.vstr "x"), none⟩,
     ⟨"aaaaaaaaaaaaaaaaaaaaaaaa", some (.vstr "y"), none⟩]
    0 100 (by decide) (by decide) (by decide)
  refine ⟨h.1, ?_⟩
  rw [h.2]
  decide

/-- Claim C5: for a caller limit `L` (in particular any `L` in `[1,20]`),
the `$vectorSearch` stage built by `vector_search` requests exactly
`L * 10` candidates, sets the store-side `limit` field to `L`, and the
stage semantics return at most `L` results. -/
theorem vector_search_overfetch (indexName : String) (ranked : List SearchDoc)
    (query_embedding : Vec) (L : Nat) (h1 : 1 ≤ L) (h2 : L ≤ 20) :
    (vectorSearchStage indexName query_embedding L).numCandidates = L * 10 ∧
    (vectorSearchStage indexName query_embedding L).limit = L ∧
    (vector_search indexName ranked query_embedding L).length ≤ L := by
  refine ⟨rfl, rfl, ?_⟩
  simp only [vector_search, runVectorSearchStage]
  exact List.length_take_le _ _

/-- Witness for C5 at `L = 3`. -/
theorem vector_search_overfetch_witness :
    (vectorSearchStage "movie_embeddings_index" [] 3).numCandidates = 3 * 10 ∧
    (vectorSearchStage "movie_embeddings_index" [] 3).limit = 3 ∧
    (vector_search "movie_embeddings_index" [] [] 3).length ≤ 3 :=
  vector_search_overfetch "movie_embeddings_index" [] [] 3 (by decide) (by decide)

/-- Claim C6: on an input that is the empty string, not a string, or on
which the underlying model errors (`enc s = none`), `get_embedding`
returns the zero-filled vector of the configured dimension — of length
exactly `dim` with every component `0` — and, being a total function,
does not raise. -/
theorem get_embedding_fail_soft (dim : Nat) (enc : String → Option Vec)
    (text : PyVal)
    (h : pyIsStr text = false ∨ ∃ s, text = .pstr s ∧ (s = "" ∨ enc s = none)) :
    get_embedding dim enc text = List.replicate dim 0 ∧
    (get_embedding dim enc text).length = dim ∧
    ∀ x ∈ get_embedding dim enc text, x = 0 := by
  have hz : get_embedding dim enc text = List.replicate dim 0 := by
    rcases h with h | ⟨s, rfl, h⟩
    · cases text <;> simp_all [get_embedding, pyIsStr]
    · rcases h with rfl | h
      · rfl
      · simp [get_embedding, pyTruthy, pyIsStr, h]
  refine ⟨hz, ?_, ?_⟩ <;> rw [hz]
  · exact List.length_replicate dim 0
  · intro x hx
    exact List.eq_of_mem_replicate hx

/-- Witness for C6 at the non-string input `None` with `dim = 4`. -/
theorem get_embedding_fail_soft_witness :
    get_embedding 4 (fun _ => none) .pnone = List.replicate 4 0 ∧
    (get_embedding 4 (fun _ => none) .pnone).length = 4 ∧
    ∀ x ∈ get_embedding 4 (fun _ => none) .pnone, x = 0 :=
  get_embedding_fail_soft 4 (fun _ => none) .pnone (Or.inl rfl)

/-- Claim C7: `update_movie_embedding` returns a boolean, and it returns
`false` (rather than raising) whenever the target document does not
exist or the stored value is unchanged by the update — i.e. whenever
any matched document already stores exactly the given vector. -/
theorem update_movie_embedding_returns_false (fails : String → Bool)
    (store : List Movie) (movie_id : String) (emb : Vec)
    (h : ∀ m, store.find? (fun x => x._id == normalizeObjectId movie_id) = some m →
          m.plot_embedding = some emb) :
    (update_movie_embedding fails store movie_id emb).2 = false := by
  simp only [update_movie_embedding]
  split
  · rfl
  · split
    · rfl
    · cases hf : store.find? (fun m => m._id == normalizeObjectId movie_id) with
      | none => simp [hf]
      | some m => simp [hf, h m hf]

/-- Witness for C7: the target document exists but already stores the
vector, so the update reports `false`. -/
theorem update_movie_embedding_returns_false_witness :
    (update_movie_embedding (fun _ => false)
      [⟨"0123456789abcdef01234567", none, some [1]⟩]
      "0123456789abcdef01234567" [1]).2 = false :=
  update_movie_embedding_returns_false (fun _ => false)
    [⟨"0123456789abcdef01234567", none, some [1]⟩]
    "0123456789abcdef01234567" [1]
    (by
      intro m hm
      have h0 : List.find?
            (fun x => x._id == normalizeObjectId "0123456789abcdef01234567")
            ([⟨"0123456789abcdef01234567", none, some [1]⟩] : List Movie)
          = some (⟨"0123456789abcdef01234567", none, some [1]⟩ : Movie) := by
        decide
      rw [h0] at hm
      cases hm
      rfl)

/-- Claim C8: for a request with non-empty query (pydantic
`min_length=1`) and limit in `[1,20]`, the search response's `count`
equals the length of its `results`, the `results` are exactly what the
store's vector search returned, in the store's order, and the response
echoes the original query text. -/
theorem semantic_search_shape (dim : Nat) (enc : String → Option Vec)
    (indexName : String) (ranked : List SearchDoc) (request : SearchRequest)
    (hq : 1 ≤ request.query.length) (h1 : 1 ≤ request.limit)
    (h2 : request.limit ≤ 20) :
    (semantic_search dim enc indexName ranked request).count
      = (semantic_search dim enc indexName ranked request).results.length ∧
    (semantic_search dim enc indexName ranked request).results
      = vector_search indexName ranked
          (get_embedding dim enc (.pstr request.query)) request.limit ∧
    (semantic_search dim enc indexName ranked request).query = request.query :=
  ⟨rfl, rfl, rfl⟩

/-- Witness for C8 on a concrete two-document ranking. -/
theorem semantic_search_shape_witness :
    (semantic_search 2 (fun _ => some [1, 0]) "movie_embeddings_index"
        [⟨"a", "A", none, none, 9/10⟩, ⟨"b", "B", none, none, 1/2⟩]
        ⟨"robots in space", 3⟩).count
      = (semantic_search 2 (fun _ => some [1, 0]) "movie_embeddings_index"
          [⟨"a", "A", none, none, 9/10⟩, ⟨"b", "B", none, none, 1/2⟩]
          ⟨"robots in space", 3⟩).results.length ∧
    (semantic_search 2 (fun _ => some [1, 0]) "movie_embeddings_index"
        [⟨"a", "A", none, none, 9/10⟩, ⟨"b", "B", none, none, 1/2⟩]
        ⟨"robots in space", 3⟩).results
      = vector_search "movie_embeddings_index"
          [⟨"a", "A", none, none, 9/10⟩, ⟨"b", "B", none, none, 1/2⟩]
          (get_embedding 2 (fun _ => some [1, 0]) (.pstr "robots in space")) 3 ∧
    (semantic_search 2 (fun _ => some [1, 0]) "movie_embeddings_index"
        [⟨"a", "A", none, none, 9/10⟩, ⟨"b", "B", none, none, 1/2⟩]
        ⟨"robots in space", 3⟩).query = "robots in space" :=
  semantic_search_shape 2 (fun _ => some [1, 0]) "movie_embeddings_index"
    [⟨"a", "A", none, none, 9/10⟩, ⟨"b", "B", none, none, 1/2⟩]
    ⟨"robots in space", 3⟩ (by decide) (by decide) (by decide)

/-- Claim C9: when the total document count is zero the stats route
returns a completion percentage of 0; the division computing the
percentage sits under the `total_movies > 0` guard and is never
reached. -/
theorem embedding_stats_zero_total (store : List Movie)
    (h : (embedding_stats store).total_movies = 0) :
    (embedding_stats store).completion_percentage = 0 := by
  simp only [embedding_stats] at h ⊢
  simp [h]

/-- Witness for C9 at the empty store. -/
theorem embedding_stats_zero_total_witness :
    (embedding_stats []).completion_percentage = 0 :=
  embedding_stats_zero_total [] rfl

/-- Claim C10: the batch embedding operation on the empty list of texts
returns the empty list — for every encoder, so in particular without
invoking the model's encode step, and with no zero-vector padding and
no error. -/
theorem get_embeddings_empty (dim : Nat)
    (encB : List (Option String) → Option (List Vec)) :
    get_embeddings dim encB [] = [] := rfl

end MovieRag
